import Mathlib

/-!
Shallow embedding of the youtrack-gcal-sync synchronization engine.

Sources embedded:
- `sync/db.go` — the SQLite-backed binding store (`DB`), including the exact
  SQL semantics of each statement (`INSERT OR REPLACE` row replacement,
  `UPDATE ... WHERE id` full-column overwrite, NULL handling in scans).
- `sync/sync.go` — the reconciler (`Sync`, `processGCalEvents`,
  `processYTissues`, `handleDeletions`, `processYTDeletions`).
- `googlecalendar/client.go` — the date formatting `CreateEvent`/`UpdateEvent`
  apply to the instants the reconciler passes.
- `youtrack/client.go` — the update-request payload shape of `UpdateIssue`
  and its HTTP status handling.

Instants (`time.Time`) are modelled as integers: milliseconds since the Unix
epoch in UTC. Go's zero `time.Time` (0001-01-01T00:00:00Z) is the sentinel
`goZeroMs`; `t.IsZero()` is `t = goZeroMs`; `time.UnixMilli v` is `v` itself;
`t.After u` is `t > u`. Remote services and the possibility of I/O failure
are modelled as oracles: a `SyncEnv` of functions returning `Except`, and a
`DbOps` record of store operations; `dbImpl` is the faithful `db.go`
instantiation over a pure `Store` value.
-/

deriving instance DecidableEq for Except

namespace YTSync

/-- Go's zero `time.Time` (January 1, year 1, UTC) in Unix milliseconds. -/
def goZeroMs : Int := -62135596800000

def msPerHour : Int := 3600000

def msPerDay : Int := 86400000

/-- `sql.NullString`: a string plus a validity flag (`Valid=false` is SQL NULL). -/
structure NullString where
  string : String
  valid : Bool
deriving DecidableEq, Repr

/-- `sql.NullTime`: an instant plus a validity flag (`Valid=false` is SQL NULL). -/
structure NullTime where
  time : Int
  valid : Bool
deriving DecidableEq, Repr

/-- `SyncItem` from `sync/db.go`: one row of the `sync_items` table. -/
structure SyncItem where
  id : Nat
  gcalId : NullString
  ytId : NullString
  gcalUpdatedAt : NullTime
  ytUpdatedAt : NullTime
deriving DecidableEq, Repr

/-- The single row (id = 1) of the `last_sync` table; both columns nullable. -/
structure LastSyncRow where
  gcalSyncToken : Option String
  ytLastSync : Option Int
deriving DecidableEq, Repr

/-- The SQLite database state: the `sync_items` rows in rowid order, the next
`AUTOINCREMENT` id, and the optional `last_sync` row with id = 1. -/
structure Store where
  items : List SyncItem
  nextId : Nat
  lastSync : Option LastSyncRow
deriving DecidableEq, Repr

/-- Two rows collide on one of the `UNIQUE` indexes of `sync_items`
(`gcal_id` or `yt_id`); SQL `UNIQUE` ignores NULLs. -/
def conflictsWith (a b : SyncItem) : Bool :=
  (a.gcalId.valid && b.gcalId.valid && a.gcalId.string == b.gcalId.string) ||
  (a.ytId.valid && b.ytId.valid && a.ytId.string == b.ytId.string)

/-- `SELECT ... WHERE gcal_id = ?`: first row whose non-NULL `gcal_id` equals
the argument (`=` never matches NULL). -/
def findByGCalId (items : List SyncItem) (gcalID : String) : Option SyncItem :=
  items.find? (fun it => it.gcalId.valid && it.gcalId.string == gcalID)

/-- `SELECT ... WHERE yt_id = ?`: first row whose non-NULL `yt_id` equals the
argument. -/
def findByYTId (items : List SyncItem) (ytID : String) : Option SyncItem :=
  items.find? (fun it => it.ytId.valid && it.ytId.string == ytID)

/-- The binding-store interface consumed by the reconciler. Every operation
may fail (the Go `error` return); `dbImpl` below is the `db.go` behaviour,
and theorems about error propagation quantify over arbitrary behaviours. -/
structure DbOps where
  getGCalSyncToken : Store → Except String String
  getYTLastSync : Store → Except String Int
  getSyncItemByGCalID : Store → String → Except String (Option SyncItem)
  getSyncItemByYTID : Store → String → Except String (Option SyncItem)
  getAllSyncItems : Store → Except String (List SyncItem)
  createSyncItem : Store → SyncItem → Except String (Store × Nat)
  updateSyncItem : Store → SyncItem → Except String Store
  deleteSyncItem : Store → Nat → Except String Store
  setGCalSyncToken : Store → String → Except String Store
  setYTLastSync : Store → Int → Except String Store

/-- The `db.go` implementation over `Store`, statement by statement:
- `GetGCalSyncToken`: `ErrNoRows` yields `""`; scanning a NULL
  `gcal_sync_token` into a Go `string` is a scan error.
- `GetYTLastSync`: `ErrNoRows` yields the zero time; scanning a NULL
  `yt_last_sync` into a Go `time.Time` is a scan error.
- `CreateSyncItem`: `INSERT` assigns the autoincrement id and fails on a
  `UNIQUE` violation.
- `UpdateSyncItem`: `UPDATE ... SET gcal_id, yt_id, gcal_updated_at,
  yt_updated_at WHERE id = ?` overwrites all four columns of every matching
  row; zero matched rows is not an error, and the `UNIQUE` indexes are only
  checked when a row is actually modified.
- `DeleteSyncItem`: `DELETE ... WHERE id = ?`, never an error.
- `SetGCalSyncToken`: `INSERT OR REPLACE INTO last_sync (id, gcal_sync_token)
  VALUES (1, ?)` — on conflict SQLite deletes the old row and inserts the new
  one, so the unmentioned `yt_last_sync` column becomes NULL.
- `SetYTLastSync`: `UPDATE ... WHERE id = 1`, falling back to a plain
  `INSERT (id, yt_last_sync)` when no row was affected. -/
def dbImpl : DbOps where
  getGCalSyncToken st :=
    match st.lastSync with
    | none => .ok ""
    | some row =>
      match row.gcalSyncToken with
      | some t => .ok t
      | none => .error "sql: Scan error: converting NULL to string"
  getYTLastSync st :=
    match st.lastSync with
    | none => .ok goZeroMs
    | some row =>
      match row.ytLastSync with
      | some t => .ok t
      | none => .error "sql: Scan error: converting NULL to time.Time"
  getSyncItemByGCalID st gcalID := .ok (findByGCalId st.items gcalID)
  getSyncItemByYTID st ytID := .ok (findByYTId st.items ytID)
  getAllSyncItems st := .ok st.items
  createSyncItem st item :=
    if st.items.any (fun it => conflictsWith item it) then
      .error "UNIQUE constraint failed"
    else
      .ok ({ st with
              items := st.items ++ [{ item with id := st.nextId }],
              nextId := st.nextId + 1 }, st.nextId)
  updateSyncItem st item :=
    if st.items.any (fun it => it.id == item.id) &&
        st.items.any (fun it => decide (it.id ≠ item.id) && conflictsWith item it) then
      .error "UNIQUE constraint failed"
    else
      .ok { st with
              items := st.items.map (fun it => if it.id = item.id then item else it) }
  deleteSyncItem st id :=
    .ok { st with items := st.items.filter (fun it => it.id ≠ id) }
  setGCalSyncToken st token :=
    .ok { st with lastSync := some { gcalSyncToken := some token, ytLastSync := none } }
  setYTLastSync st t :=
    .ok { st with lastSync :=
      match st.lastSync with
      | some row => some { row with ytLastSync := some t }
      | none => some { gcalSyncToken := none, ytLastSync := some t } }

/-- The `yt_last_sync` value currently stored in the cursor row, if any. -/
def storedWatermark (st : Store) : Option Int :=
  st.lastSync.bind (fun row => row.ytLastSync)

/-- The `gcal_sync_token` value currently stored in the cursor row, if any. -/
def storedToken (st : Store) : Option String :=
  st.lastSync.bind (fun row => row.gcalSyncToken)

/-- `googlecalendar.Event` as consumed by the reconciler (the fields it
reads): id, summary, html link, start instant, status, updated instant. -/
structure GCalEvent where
  id : String
  summary : String
  htmlLink : String
  start : Int
  status : String
  updated : Int
deriving DecidableEq, Repr

/-- The value of a YouTrack custom field after JSON decoding: the reconciler
only distinguishes a JSON number (Go `float64`, here the instant it converts
to via `time.UnixMilli(int64(val))`) from every other shape. -/
inductive CFValue where
  | num (v : Int)
  | other
deriving DecidableEq, Repr

/-- `youtrack.CustomField` as read by the reconciler: name and value. -/
structure CustomField where
  name : String
  value : CFValue
deriving DecidableEq, Repr

/-- `youtrack.Issue` as read by the reconciler: id, summary, update instant
(milliseconds since epoch), custom fields. -/
structure Issue where
  id : String
  summary : String
  updated : Int
  customFields : List CustomField
deriving DecidableEq, Repr

/-- The `*calendar.Event` returned by `CreateEvent`, reduced to the fields the
reconciler reads: `Id`, and the RFC3339 `Updated` string already parsed to an
instant (`time.Parse` failure yields the zero time, as the code ignores the
parse error). -/
structure CreatedEvent where
  id : String
  updated : Int
deriving DecidableEq, Repr

/-- One remote write attempted through the `GCalClient`/`YTClient`
interfaces, with the arguments the reconciler passed. -/
inductive RemoteCall where
  | createIssue (projectID summary description : String) (dueDate : Option Int)
  | updateIssue (issueID summary description : String) (dueDate : Option Int)
  | createEvent (calendarID summary description : String) (start stop : Int)
  | updateEvent (calendarID eventID summary description : String) (start stop : Int)
  | deleteEvent (calendarID eventID : String)
deriving DecidableEq, Repr

/-- The remote collaborators and configuration a `Synchronizer` holds: the
two clients as response oracles plus `YouTrackProjectID`,
`YouTrackQueryProjectID`, `CalendarID` and the YouTrack base URL. -/
structure SyncEnv where
  fetchEvents : String → String → Except String (List GCalEvent × String)
  getUpdatedIssues : String → Int → Except String (List Issue)
  getDeletedIssueIDs : String → Int → Except String (List String)
  ytCreateIssue : String → String → String → Option Int → Except String Issue
  ytUpdateIssue : String → String → String → Option Int → Except String Unit
  gcalCreateEvent : String → String → String → Int → Int → Except String CreatedEvent
  gcalUpdateEvent : String → String → String → String → Int → Int → Except String CreatedEvent
  gcalDeleteEvent : String → String → Except String Unit
  ytBaseURL : String
  ytProjectID : String
  ytQueryProjectID : String
  calendarID : String

/-- Due-date extraction in `processYTissues`: `var dueDate time.Time` starts
at the zero time; every custom field named `"Due Date"` whose decoded value
is a number overwrites it with `time.UnixMilli(int64(val))`; non-numeric
values leave it unchanged. -/
def extractDueDate (issue : Issue) : Int :=
  issue.customFields.foldl
    (fun acc cf =>
      if cf.name = "Due Date" then
        match cf.value with
        | .num v => v
        | .other => acc
      else acc)
    goZeroMs

/-- Loop body of `processGCalEvents`. Per-item failures (store read, remote
create, store write) are logged and the loop continues; the result of the
remote `UpdateIssue` call in the update branch is only logged, so the
subsequent binding write does not depend on it. -/
def processGCalEventsLoop (db : DbOps) (env : SyncEnv) :
    List GCalEvent → Store → Store × List RemoteCall
  | [], st => (st, [])
  | event :: rest, st =>
    if event.status = "cancelled" then
      processGCalEventsLoop db env rest st
    else
      match db.getSyncItemByGCalID st event.id with
      | .error _ => processGCalEventsLoop db env rest st
      | .ok none =>
        let call := RemoteCall.createIssue env.ytProjectID event.summary event.htmlLink
          (some event.start)
        match env.ytCreateIssue env.ytProjectID event.summary event.htmlLink
            (some event.start) with
        | .error _ =>
          let (st', calls) := processGCalEventsLoop db env rest st
          (st', call :: calls)
        | .ok issue =>
          let newItem : SyncItem :=
            { id := 0,
              gcalId := { string := event.id, valid := true },
              ytId := { string := issue.id, valid := true },
              gcalUpdatedAt := { time := event.updated, valid := true },
              ytUpdatedAt := { time := issue.updated, valid := true } }
          let st :=
            match db.createSyncItem st newItem with
            | .ok (s, _) => s
            | .error _ => st
          let (st', calls) := processGCalEventsLoop db env rest st
          (st', call :: calls)
      | .ok (some syncItem) =>
        if event.updated > syncItem.gcalUpdatedAt.time then
          let call := RemoteCall.updateIssue syncItem.ytId.string event.summary
            event.htmlLink (some event.start)
          let _ := env.ytUpdateIssue syncItem.ytId.string event.summary
            event.htmlLink (some event.start)
          let item' := { syncItem with
            gcalUpdatedAt := { time := event.updated, valid := true } }
          let st :=
            match db.updateSyncItem st item' with
            | .ok s => s
            | .error _ => st
          let (st', calls) := processGCalEventsLoop db env rest st
          (st', call :: calls)
        else
          processGCalEventsLoop db env rest st

/-- `processGCalEvents`: iterates the loop and returns nil (its Go `error`
result is never non-nil — every failure inside the body is logged). -/
def processGCalEvents (db : DbOps) (env : SyncEnv) (events : List GCalEvent)
    (st : Store) : Except String (Store × List RemoteCall) :=
  .ok (processGCalEventsLoop db env events st)

/-- The calendar-event description `processYTissues` composes:
`fmt.Sprintf("YouTrack Issue: %s/issue/%s", baseURL, issueID)`. -/
def ytIssueDescription (baseURL issueID : String) : String :=
  "YouTrack Issue: " ++ baseURL ++ "/issue/" ++ issueID

/-- Loop body of `processYTissues`; mirrors `processGCalEventsLoop` with the
sides swapped, plus the due-date extraction and the dated-only create rule.
The result of the remote `UpdateEvent` call is only logged. -/
def processYTissuesLoop (db : DbOps) (env : SyncEnv) :
    List Issue → Store → Store × List RemoteCall
  | [], st => (st, [])
  | issue :: rest, st =>
    match db.getSyncItemByYTID st issue.id with
    | .error _ => processYTissuesLoop db env rest st
    | .ok r =>
      match r with
      | none =>
        if extractDueDate issue ≠ goZeroMs then
          let call := RemoteCall.createEvent env.calendarID issue.summary
            (ytIssueDescription env.ytBaseURL issue.id)
            (extractDueDate issue) (extractDueDate issue + msPerHour)
          match env.gcalCreateEvent env.calendarID issue.summary
              (ytIssueDescription env.ytBaseURL issue.id)
              (extractDueDate issue) (extractDueDate issue + msPerHour) with
          | .error _ =>
            let (st', calls) := processYTissuesLoop db env rest st
            (st', call :: calls)
          | .ok ev =>
            let newItem : SyncItem :=
              { id := 0,
                gcalId := { string := ev.id, valid := true },
                ytId := { string := issue.id, valid := true },
                gcalUpdatedAt := { time := ev.updated, valid := true },
                ytUpdatedAt := { time := issue.updated, valid := true } }
            let st :=
              match db.createSyncItem st newItem with
              | .ok (s, _) => s
              | .error _ => st
            let (st', calls) := processYTissuesLoop db env rest st
            (st', call :: calls)
        else
          processYTissuesLoop db env rest st
      | some syncItem =>
        if issue.updated > syncItem.ytUpdatedAt.time then
          let call := RemoteCall.updateEvent env.calendarID syncItem.gcalId.string
            issue.summary (ytIssueDescription env.ytBaseURL issue.id)
            (extractDueDate issue) (extractDueDate issue + msPerHour)
          let _ := env.gcalUpdateEvent env.calendarID syncItem.gcalId.string
            issue.summary (ytIssueDescription env.ytBaseURL issue.id)
            (extractDueDate issue) (extractDueDate issue + msPerHour)
          let item' := { syncItem with
            ytUpdatedAt := { time := issue.updated, valid := true } }
          let st :=
            match db.updateSyncItem st item' with
            | .ok s => s
            | .error _ => st
          let (st', calls) := processYTissuesLoop db env rest st
          (st', call :: calls)
        else
          processYTissuesLoop db env rest st

/-- `processYTissues`: the Go `error` result is never non-nil. -/
def processYTissues (db : DbOps) (env : SyncEnv) (issues : List Issue)
    (st : Store) : Except String (Store × List RemoteCall) :=
  .ok (processYTissuesLoop db env issues st)

/-- The Go map `gcalEventMap` built by `handleDeletions`: when the delta batch
holds the same event id twice, the later entry overwrites the earlier one. -/
def lookupEvent (events : List GCalEvent) (id : String) : Option GCalEvent :=
  events.foldl (fun acc ev => if ev.id = id then some ev else acc) none

/-- The condition under which `handleDeletions` acts on a binding: its
`gcal_id` is non-NULL and the delta batch maps that id to a cancelled event. -/
def cancelledInBatch (events : List GCalEvent) (item : SyncItem) : Bool :=
  item.gcalId.valid &&
    match lookupEvent events item.gcalId.string with
    | some ev => ev.status == "cancelled"
    | none => false

/-- Loop body of `handleDeletions` over the snapshot list of all bindings:
for each binding cancelled in the batch, call
`UpdateIssue(item.YTID.String, "", "", nil)` (result logged) and delete the
binding (result logged). -/
def handleDeletionsLoop (db : DbOps) (env : SyncEnv) (events : List GCalEvent) :
    List SyncItem → Store → Store × List RemoteCall
  | [], st => (st, [])
  | item :: rest, st =>
    if cancelledInBatch events item then
      let call := RemoteCall.updateIssue item.ytId.string "" "" none
      let _ := env.ytUpdateIssue item.ytId.string "" "" none
      let st :=
        match db.deleteSyncItem st item.id with
        | .ok s => s
        | .error _ => st
      let (st', calls) := handleDeletionsLoop db env events rest st
      (st', call :: calls)
    else
      handleDeletionsLoop db env events rest st

/-- `handleDeletions`: the one store read whose failure propagates
(`failed to get all sync items`); everything after it is logged per item. -/
def handleDeletions (db : DbOps) (env : SyncEnv) (events : List GCalEvent)
    (st : Store) : Except String (Store × List RemoteCall) :=
  match db.getAllSyncItems st with
  | .error e => .error ("failed to get all sync items: " ++ e)
  | .ok allDbItems => .ok (handleDeletionsLoop db env events allDbItems st)

/-- Loop body of `processYTDeletions`: per-item store read failures are
logged and skipped; for a binding with a non-NULL `gcal_id`, the calendar
event is deleted (result logged) and the binding removed (result logged). -/
def processYTDeletionsLoop (db : DbOps) (env : SyncEnv) :
    List String → Store → Store × List RemoteCall
  | [], st => (st, [])
  | ytID :: rest, st =>
    match db.getSyncItemByYTID st ytID with
    | .error _ => processYTDeletionsLoop db env rest st
    | .ok none => processYTDeletionsLoop db env rest st
    | .ok (some syncItem) =>
      if syncItem.gcalId.valid then
        let call := RemoteCall.deleteEvent env.calendarID syncItem.gcalId.string
        let _ := env.gcalDeleteEvent env.calendarID syncItem.gcalId.string
        let st :=
          match db.deleteSyncItem st syncItem.id with
          | .ok s => s
          | .error _ => st
        let (st', calls) := processYTDeletionsLoop db env rest st
        (st', call :: calls)
      else
        processYTDeletionsLoop db env rest st

/-- `processYTDeletions`: the Go `error` result is never non-nil. -/
def processYTDeletions (db : DbOps) (env : SyncEnv) (deletedYTIDs : List String)
    (st : Store) : Except String (Store × List RemoteCall) :=
  .ok (processYTDeletionsLoop db env deletedYTIDs st)

/-- The watermark actually used for the two YouTrack queries: the stored one,
or `now − 30 days` when the stored one is the zero time. -/
def resolveWatermark (ytLastSync nowStart : Int) : Int :=
  if ytLastSync = goZeroMs then nowStart - 30 * msPerDay else ytLastSync

/-- `Synchronizer.Sync`, one run. `nowStart` is the instant of the
`time.Now()` call evaluated while loading cursors (step 1); `nowEnd` is the
instant of the fresh `time.Now()` call evaluated when persisting the
watermark (step 7) — the code samples the clock again there rather than
reusing a start-of-run sample. Step-7 write failures are logged and the run
still returns nil. -/
def Sync (db : DbOps) (env : SyncEnv) (nowStart nowEnd : Int) (st : Store) :
    Except String (Store × List RemoteCall) := do
  let gcalSyncToken ← db.getGCalSyncToken st
  let ytLastSync ← db.getYTLastSync st
  let ytLastSync := resolveWatermark ytLastSync nowStart
  let fetched ← env.fetchEvents env.calendarID gcalSyncToken
  let gcalEvents := fetched.1
  let newGCalSyncToken := fetched.2
  let ytIssues ← env.getUpdatedIssues env.ytQueryProjectID ytLastSync
  let ytDeletedIssueIDs ← env.getDeletedIssueIDs env.ytQueryProjectID ytLastSync
  let r1 ← processGCalEvents db env gcalEvents st
  let r2 ← processYTissues db env ytIssues r1.1
  let r3 ← handleDeletions db env gcalEvents r2.1
  let r4 ← processYTDeletions db env ytDeletedIssueIDs r3.1
  let st5 :=
    if newGCalSyncToken ≠ "" ∧ newGCalSyncToken ≠ gcalSyncToken then
      match db.setGCalSyncToken r4.1 newGCalSyncToken with
      | .ok s => s
      | .error _ => r4.1
    else r4.1
  let st6 :=
    match db.setYTLastSync st5 nowEnd with
    | .ok s => s
    | .error _ => st5
  .ok (st6, r1.2 ++ r2.2 ++ r3.2 ++ r4.2)

/-- UTC calendar-day index of an instant in milliseconds (floor division);
this is what formatting a UTC `time.Time` with layout `"2006-01-02"`
exposes of the instant. -/
def dayOf (t : Int) : Int := t / msPerDay

/-- The whole-day `Start`/`End` dates `googlecalendar.CreateEvent` and
`UpdateEvent` put in the event body, as day indexes:
`Start.Date = start.Format("2006-01-02")` and
`End.Date = end.AddDate(0, 0, 1).Format("2006-01-02")` (in UTC,
`AddDate(0,0,1)` adds exactly one day of milliseconds). -/
def calEventBodyDates (start stop : Int) : Int × Int :=
  (dayOf start, dayOf (stop + msPerDay))

/-- A `customFields` entry of the `UpdateIssue` request body
(`youtrack.CustomFieldWrapper`). -/
structure CustomFieldWrapper where
  type : String
  value : Int
deriving DecidableEq, Repr

/-- The JSON body `youtrack.Client.UpdateIssue` marshals: always `summary`
and `description`; a `customFields` key only when the due-date argument is
non-nil (`none` here models the key being absent from the request). -/
structure YTUpdatePayload where
  summary : String
  description : String
  customFields : Option (List CustomFieldWrapper)
deriving DecidableEq, Repr

/-- Request-body construction in `youtrack.Client.UpdateIssue`. -/
def buildUpdateIssuePayload (summary description : String) (dueDate : Option Int) :
    YTUpdatePayload :=
  match dueDate with
  | some d =>
    { summary := summary, description := description,
      customFields := some [{ type := "DateIssueCustomField", value := d }] }
  | none =>
    { summary := summary, description := description, customFields := none }

/-- Outcome classification of `youtrack.Client.UpdateIssue`. -/
inductive YTUpdateOutcome where
  | ok
  | notFound
  | otherError (status : Nat)
deriving DecidableEq, Repr

/-- HTTP-status handling in `youtrack.Client.UpdateIssue`: 404 becomes
`ErrNotFound`, any other non-200 a generic error, 200 success. -/
def updateIssueStatusOutcome (status : Nat) : YTUpdateOutcome :=
  if status = 404 then .notFound
  else if status ≠ 200 then .otherError status
  else .ok

/-! ### Concrete fixtures used by closed theorems -/

/-- An environment with empty delta batches and every remote write failing;
the fresh delta token is `"tok-next"`. -/
def envQuiet : SyncEnv where
  fetchEvents := fun _ _ => .ok ([], "tok-next")
  getUpdatedIssues := fun _ _ => .ok []
  getDeletedIssueIDs := fun _ _ => .ok []
  ytCreateIssue := fun _ _ _ _ => .error "remote down"
  ytUpdateIssue := fun _ _ _ _ => .error "remote down"
  gcalCreateEvent := fun _ _ _ _ _ => .error "remote down"
  gcalUpdateEvent := fun _ _ _ _ _ _ => .error "remote down"
  gcalDeleteEvent := fun _ _ => .error "remote down"
  ytBaseURL := "https://yt.example"
  ytProjectID := "P"
  ytQueryProjectID := "Q"
  calendarID := "cal"

/-- An empty store, as `NewDB` leaves it right after creating the schema. -/
def st0 : Store := { items := [], nextId := 1, lastSync := none }

/-- One fully-bound binding: `(EV1, YT1)`, both sides last seen at 100. -/
def item1 : SyncItem :=
  { id := 1,
    gcalId := { string := "EV1", valid := true },
    ytId := { string := "YT1", valid := true },
    gcalUpdatedAt := { time := 100, valid := true },
    ytUpdatedAt := { time := 100, valid := true } }

/-- A store holding only `item1`. -/
def stOne : Store := { items := [item1], nextId := 2, lastSync := none }

/-- The delta event `EV1`, updated at 200 (strictly newer than `item1`). -/
def ev200 : GCalEvent :=
  { id := "EV1", summary := "S", htmlLink := "L", start := 50,
    status := "confirmed", updated := 200 }

/-- The delta event `EV1`, updated at 100 (equal to `item1`'s stored stamp). -/
def ev100 : GCalEvent :=
  { id := "EV1", summary := "S", htmlLink := "L", start := 50,
    status := "confirmed", updated := 100 }

/-- The issue `YT1`, updated at 100 (equal to `item1`'s stored stamp). -/
def issue100 : Issue :=
  { id := "YT1", summary := "S", updated := 100, customFields := [] }

/-- The issue `YT1`, updated at 200 (strictly newer than `item1`), with a
due date of 50. -/
def issue200 : Issue :=
  { id := "YT1", summary := "S", updated := 200,
    customFields := [{ name := "Due Date", value := .num 50 }] }

/-- An unbound dated issue whose due instant 84600000 is 23:30 UTC of
epoch day 0 — inside the last hour of its calendar day. -/
def issueLateDue : Issue :=
  { id := "YT9", summary := "S", updated := 10,
    customFields := [{ name := "Due Date", value := .num 84600000 }] }

/-- `dbImpl`, except that loading the full binding list fails. -/
def dbGetAllFails : DbOps :=
  { dbImpl with getAllSyncItems := fun _ => .error "disk failure" }

/-- `dbImpl`, except that both cursor writes fail. -/
def dbCursorWritesFail : DbOps :=
  { dbImpl with
      setGCalSyncToken := fun _ _ => .error "disk failure",
      setYTLastSync := fun _ _ => .error "disk failure" }

/-- An event unknown to the store, used to drive the create branch. -/
def evNew : GCalEvent :=
  { id := "EV-new", summary := "N", htmlLink := "LN", start := 40,
    status := "confirmed", updated := 300 }

/-- `envQuiet`, except the fetch returns `evNew` and creating the
YouTrack issue succeeds. -/
def envCreate : SyncEnv :=
  { envQuiet with
      fetchEvents := fun _ _ => .ok ([evNew], "tok-next"),
      ytCreateIssue := fun _ _ _ _ =>
        .ok { id := "YT-new", summary := "N", updated := 310, customFields := [] } }

/-- Every item of `news` is either bound on both sides, or carries exactly
the local id and the two remote ids of some item of `olds` — i.e. it is not
a half-bound row the engine itself produced. -/
def IdsInherited (olds news : List SyncItem) : Prop :=
  ∀ it ∈ news, (it.gcalId.valid = true ∧ it.ytId.valid = true) ∨
    ∃ j ∈ olds, j.id = it.id ∧ j.gcalId = it.gcalId ∧ j.ytId = it.ytId

/-- The remote-call trace of a reconciliation step result. -/
def callsOf (r : Except String (Store × List RemoteCall)) : List RemoteCall :=
  match r with
  | .ok (_, calls) => calls
  | .error _ => []

/-! ### Equation lemmas for the `dbImpl` operations -/

theorem dbImpl_getSyncItemByGCalID (st : Store) (gcalID : String) :
    dbImpl.getSyncItemByGCalID st gcalID = .ok (findByGCalId st.items gcalID) := rfl

theorem dbImpl_getSyncItemByYTID (st : Store) (ytID : String) :
    dbImpl.getSyncItemByYTID st ytID = .ok (findByYTId st.items ytID) := rfl

theorem dbImpl_getAllSyncItems (st : Store) :
    dbImpl.getAllSyncItems st = .ok st.items := rfl

theorem dbImpl_updateSyncItem (st : Store) (item : SyncItem) :
    dbImpl.updateSyncItem st item =
      if ((st.items.any fun it => it.id == item.id) &&
          st.items.any fun it => decide (it.id ≠ item.id) && conflictsWith item it) then
        .error "UNIQUE constraint failed"
      else
        .ok { st with
                items := st.items.map (fun it => if it.id = item.id then item else it) } := rfl

theorem dbImpl_createSyncItem (st : Store) (item : SyncItem) :
    dbImpl.createSyncItem st item =
      if st.items.any (fun it => conflictsWith item it) then
        .error "UNIQUE constraint failed"
      else
        .ok ({ st with
                items := st.items ++ [{ item with id := st.nextId }],
                nextId := st.nextId + 1 }, st.nextId) := rfl

theorem dbImpl_deleteSyncItem (st : Store) (id : Nat) :
    dbImpl.deleteSyncItem st id =
      .ok { st with items := st.items.filter (fun it => it.id ≠ id) } := rfl

theorem dbImpl_setGCalSyncToken (st : Store) (token : String) :
    dbImpl.setGCalSyncToken st token =
      .ok { st with lastSync := some { gcalSyncToken := some token, ytLastSync := none } } := rfl

theorem dbImpl_setYTLastSync (st : Store) (t : Int) :
    dbImpl.setYTLastSync st t =
      .ok { st with lastSync :=
        match st.lastSync with
        | some row => some { row with ytLastSync := some t }
        | none => some { gcalSyncToken := none, ytLastSync := some t } } := rfl

/-! ### C5 -/

/-- C5: the claim that persisting the new CAL delta token never erases the
stored IT watermark fails on the code. `SetGCalSyncToken` runs
`INSERT OR REPLACE INTO last_sync (id, gcal_sync_token) VALUES (1, ?)`, and
SQLite's `OR REPLACE` deletes the conflicting row and inserts a fresh one in
which the unmentioned `yt_last_sync` column is NULL: starting from a cursor
row holding token `"tok-a"` and watermark 500, storing token `"tok-b"`
leaves the watermark slot empty. `SetYTLastSync`, by contrast, is written as
`UPDATE`-then-`INSERT` precisely so that it preserves the token column. -/
theorem c5_setGCalSyncToken_erases_watermark :
    dbImpl.setGCalSyncToken
        { items := [], nextId := 1,
          lastSync := some { gcalSyncToken := some "tok-a", ytLastSync := some 500 } }
        "tok-b" =
      .ok { items := [], nextId := 1,
            lastSync := some { gcalSyncToken := some "tok-b", ytLastSync := none } } ∧
    storedWatermark
        { items := [], nextId := 1,
          lastSync := some { gcalSyncToken := some "tok-a", ytLastSync := some 500 } } =
      some 500 ∧
    storedWatermark
        { items := [], nextId := 1,
          lastSync := some { gcalSyncToken := some "tok-b", ytLastSync := none } } =
      none ∧
    dbImpl.setYTLastSync
        { items := [], nextId := 1,
          lastSync := some { gcalSyncToken := some "tok-a", ytLastSync := some 500 } }
        700 =
      .ok { items := [], nextId := 1,
            lastSync := some { gcalSyncToken := some "tok-a", ytLastSync := some 700 } } := by
  decide

/-! ### C7 -/

/-- C7: with the due-date argument absent, `UpdateIssue` builds a request
body that omits the `customFields` key entirely — it leaves the due-date
field unmentioned instead of conveying its removal, although its call site
in `handleDeletions` is annotated `// Remove due date`. The second half of
the claim does hold: the call maps HTTP 404 to `ErrNotFound` and nothing
else to it. -/
theorem c7_update_payload_and_notFound :
    (buildUpdateIssuePayload "" "" none).customFields = none ∧
    buildUpdateIssuePayload "" "" none =
      { summary := "", description := "", customFields := none } ∧
    updateIssueStatusOutcome 404 = .notFound ∧
    updateIssueStatusOutcome 200 = .ok ∧
    (∀ status : Nat, updateIssueStatusOutcome status = .notFound ↔ status = 404) := by
  refine ⟨rfl, rfl, rfl, rfl, ?_⟩
  intro status
  unfold updateIssueStatusOutcome
  by_cases h404 : status = 404
  · simp [h404]
  · by_cases h200 : status = 200 <;> simp [h404, h200]

/-! ### C9 -/

/-- C9 counterexample: the store's update operation does not fail with
`NotFound` on an unknown local id — updating id 1 in an empty store
succeeds and changes nothing — and a partial update does not preserve
fields the caller left unset: updating `item1`'s row with a `SyncItem`
whose `YTUpdatedAt` is NULL erases the stored timestamp instead of
preserving it. -/
theorem c9_counterexample :
    dbImpl.updateSyncItem st0 item1 = .ok st0 ∧
    dbImpl.updateSyncItem stOne
        { id := 1,
          gcalId := { string := "EV1", valid := true },
          ytId := { string := "YT1", valid := true },
          gcalUpdatedAt := { time := 100, valid := true },
          ytUpdatedAt := { time := 0, valid := false } } =
      .ok { items := [{ id := 1,
                        gcalId := { string := "EV1", valid := true },
                        ytId := { string := "YT1", valid := true },
                        gcalUpdatedAt := { time := 100, valid := true },
                        ytUpdatedAt := { time := 0, valid := false } }],
            nextId := 2, lastSync := none } := by
  decide

/-- C9 (amended): `UpdateSyncItem` never reports `NotFound`: on an unknown
local id it succeeds and leaves the store unchanged (the `UPDATE` matches
zero rows), and on a known id it overwrites all four stored columns with the
caller's values — fields the caller did not set become NULL, so preservation
of untouched fields is the callers' read-modify-write duty, not a property
of the store operation. -/
theorem c9_update_overwrites_all_fields :
    (∀ (st : Store) (item : SyncItem),
      item.id ∉ st.items.map SyncItem.id →
      dbImpl.updateSyncItem st item = .ok st) ∧
    (∀ (st : Store) (item : SyncItem),
      (st.items.any (fun it => decide (it.id ≠ item.id) && conflictsWith item it)) = false →
      dbImpl.updateSyncItem st item =
        .ok { st with
                items := st.items.map (fun it => if it.id = item.id then item else it) }) := by
  constructor
  · intro st item hid
    have hmatch : (st.items.any (fun it => it.id == item.id)) = false := by
      rw [List.any_eq_false]
      intro it hit h
      exact hid (eq_of_beq h ▸ List.mem_map_of_mem SyncItem.id hit)
    have hmap : st.items.map (fun it => if it.id = item.id then item else it) = st.items := by
      have hpt : ∀ it ∈ st.items, (if it.id = item.id then item else it) = it := by
        intro it hit
        rw [if_neg]
        intro h
        exact hid (h ▸ List.mem_map_of_mem SyncItem.id hit)
      rw [List.map_congr_left hpt]
      exact List.map_id' st.items
    rw [dbImpl_updateSyncItem, hmatch, Bool.false_and, hmap]
    rfl
  · intro st item hconf
    rw [dbImpl_updateSyncItem, hconf, Bool.and_false]
    rfl

/-! ### C6 -/

/-- C6: re-observing a CAL event whose updated instant equals the binding's
stored CAL-side timestamp produces no remote call and leaves the store
unchanged (the comparison `event.Updated.After(...)` is strict-greater);
symmetrically an IT issue whose updated instant equals the stored IT-side
timestamp produces no CAL write and no store change. -/
theorem c6_equal_timestamp_is_noop :
    (∀ (env : SyncEnv) (st : Store) (ev : GCalEvent) (item : SyncItem),
      findByGCalId st.items ev.id = some item →
      item.gcalUpdatedAt.time = ev.updated →
      processGCalEvents dbImpl env [ev] st = .ok (st, [])) ∧
    (∀ (env : SyncEnv) (st : Store) (issue : Issue) (item : SyncItem),
      findByYTId st.items issue.id = some item →
      item.ytUpdatedAt.time = issue.updated →
      processYTissues dbImpl env [issue] st = .ok (st, [])) := by
  constructor
  · intro env st ev item hfind htime
    have hlt : ¬ (ev.updated > item.gcalUpdatedAt.time) := by
      rw [htime]
      exact lt_irrefl _
    by_cases hc : ev.status = "cancelled" <;>
      simp [processGCalEvents, processGCalEventsLoop, dbImpl_getSyncItemByGCalID,
        hfind, hc, hlt]
  · intro env st issue item hfind htime
    have hlt : ¬ (issue.updated > item.ytUpdatedAt.time) := by
      rw [htime]
      exact lt_irrefl _
    simp [processYTissues, processYTissuesLoop, dbImpl_getSyncItemByYTID, hfind, hlt]

/-- C6 witness: re-observing `EV1` at the stored stamp 100, and `YT1` at the
stored stamp 100, both leave `stOne` untouched with empty traces. -/
theorem c6_witness :
    processGCalEvents dbImpl envQuiet [ev100] stOne = .ok (stOne, []) ∧
    processYTissues dbImpl envQuiet [issue100] stOne = .ok (stOne, []) :=
  ⟨c6_equal_timestamp_is_noop.1 envQuiet stOne ev100 item1 (by decide) (by decide),
   c6_equal_timestamp_is_noop.2 envQuiet stOne issue100 item1 (by decide) (by decide)⟩

/-! ### C1 -/

/-- C1 counterexample: with the remote update deliberately failing
(`envQuiet` rejects every write), observing `EV1` at instant 200 against a
binding stored at 100 still advances the binding's CAL timestamp to 200 and
writes it — the update branch logs the `UpdateIssue` error and falls
through to the binding write instead of skipping the item, so the binding
row is not left unchanged on remote failure. The IT→CAL branch behaves the
same way for `YT1` updated at 200. -/
theorem c1_counterexample :
    envQuiet.ytUpdateIssue "YT1" "S" "L" (some 50) = .error "remote down" ∧
    processGCalEvents dbImpl envQuiet [ev200] stOne =
      .ok ({ items := [{ id := 1,
                         gcalId := { string := "EV1", valid := true },
                         ytId := { string := "YT1", valid := true },
                         gcalUpdatedAt := { time := 200, valid := true },
                         ytUpdatedAt := { time := 100, valid := true } }],
             nextId := 2, lastSync := none },
        [RemoteCall.updateIssue "YT1" "S" "L" (some 50)]) ∧
    ({ items := [{ id := 1,
                   gcalId := { string := "EV1", valid := true },
                   ytId := { string := "YT1", valid := true },
                   gcalUpdatedAt := { time := 200, valid := true },
                   ytUpdatedAt := { time := 100, valid := true } }],
       nextId := 2, lastSync := none } : Store) ≠ stOne ∧
    envQuiet.gcalUpdateEvent "cal" "EV1" "S"
        (ytIssueDescription "https://yt.example" "YT1") 50 (50 + msPerHour) =
      .error "remote down" ∧
    processYTissues dbImpl envQuiet [issue200] stOne =
      .ok ({ items := [{ id := 1,
                         gcalId := { string := "EV1", valid := true },
                         ytId := { string := "YT1", valid := true },
                         gcalUpdatedAt := { time := 100, valid := true },
                         ytUpdatedAt := { time := 200, valid := true } }],
             nextId := 2, lastSync := none },
        [RemoteCall.updateEvent "cal" "EV1" "S"
          (ytIssueDescription "https://yt.example" "YT1") 50 (50 + msPerHour)]) := by
  decide

/-- C1 (amended): when a bound CAL event is observed with a strictly newer
updated instant, the remote `UpdateIssue` call is attempted and the
binding's CAL timestamp is advanced and written *regardless* of the remote
call's outcome (the statement holds for every environment, in particular
for ones whose update calls fail): the remote failure is only logged, so a
failed remote update is not re-attempted on the next run. Symmetrically for
IT issues and the IT-side timestamp. -/
theorem c1_amended :
    (∀ (env : SyncEnv) (st : Store) (ev : GCalEvent) (item : SyncItem),
      findByGCalId st.items ev.id = some item →
      ev.status ≠ "cancelled" →
      ev.updated > item.gcalUpdatedAt.time →
      (st.items.any fun it => decide (it.id ≠ item.id) && conflictsWith item it) = false →
      processGCalEvents dbImpl env [ev] st =
        .ok ({ st with items := st.items.map (fun it =>
                 if it.id = item.id then
                   { item with gcalUpdatedAt := { time := ev.updated, valid := true } }
                 else it) },
          [RemoteCall.updateIssue item.ytId.string ev.summary ev.htmlLink
            (some ev.start)])) ∧
    (∀ (env : SyncEnv) (st : Store) (issue : Issue) (item : SyncItem),
      findByYTId st.items issue.id = some item →
      issue.updated > item.ytUpdatedAt.time →
      (st.items.any fun it => decide (it.id ≠ item.id) && conflictsWith item it) = false →
      processYTissues dbImpl env [issue] st =
        .ok ({ st with items := st.items.map (fun it =>
                 if it.id = item.id then
                   { item with ytUpdatedAt := { time := issue.updated, valid := true } }
                 else it) },
          [RemoteCall.updateEvent env.calendarID item.gcalId.string issue.summary
            (ytIssueDescription env.ytBaseURL issue.id)
            (extractDueDate issue) (extractDueDate issue + msPerHour)])) := by
  constructor
  · intro env st ev item hfind hc hgt hconf
    have hany : (st.items.any fun it => it.id == item.id) = true :=
      List.any_eq_true.2 ⟨item, List.mem_of_find?_eq_some hfind, by simp⟩
    simp [processGCalEvents, processGCalEventsLoop, dbImpl_getSyncItemByGCalID,
      hfind, hc, hgt, dbImpl_updateSyncItem, hany, hconf]
    have hC : ¬ ∃ x ∈ st.items, ¬x.id = item.id ∧
        conflictsWith
          { item with gcalUpdatedAt := { time := ev.updated, valid := true } } x = true := by
      rintro ⟨x, hx, hne, hcw⟩
      apply List.any_eq_false.1 hconf x hx
      have hcw' : conflictsWith item x = true := hcw
      simp [hne, hcw']
    rw [if_neg hC]
  · intro env st issue item hfind hgt hconf
    have hany : (st.items.any fun it => it.id == item.id) = true :=
      List.any_eq_true.2 ⟨item, List.mem_of_find?_eq_some hfind, by simp⟩
    simp [processYTissues, processYTissuesLoop, dbImpl_getSyncItemByYTID,
      hfind, hgt, dbImpl_updateSyncItem, hany, hconf]
    have hC : ¬ ∃ x ∈ st.items, ¬x.id = item.id ∧
        conflictsWith
          { item with ytUpdatedAt := { time := issue.updated, valid := true } } x = true := by
      rintro ⟨x, hx, hne, hcw⟩
      apply List.any_eq_false.1 hconf x hx
      have hcw' : conflictsWith item x = true := hcw
      simp [hne, hcw']
    rw [if_neg hC]

/-- C1 witness: the amended theorem applied at `EV1`/`YT1` observed at 200
against the binding stored at 100. -/
theorem c1_witness :
    processGCalEvents dbImpl envQuiet [ev200] stOne =
      .ok ({ stOne with items := stOne.items.map (fun it =>
               if it.id = item1.id then
                 { item1 with gcalUpdatedAt := { time := ev200.updated, valid := true } }
               else it) },
        [RemoteCall.updateIssue item1.ytId.string ev200.summary ev200.htmlLink
          (some ev200.start)]) ∧
    processYTissues dbImpl envQuiet [issue200] stOne =
      .ok ({ stOne with items := stOne.items.map (fun it =>
               if it.id = item1.id then
                 { item1 with ytUpdatedAt := { time := issue200.updated, valid := true } }
               else it) },
        [RemoteCall.updateEvent envQuiet.calendarID item1.gcalId.string issue200.summary
          (ytIssueDescription envQuiet.ytBaseURL issue200.id)
          (extractDueDate issue200) (extractDueDate issue200 + msPerHour)]) :=
  ⟨c1_amended.1 envQuiet stOne ev200 item1 (by decide) (by decide) (by decide) (by decide),
   c1_amended.2 envQuiet stOne issue200 item1 (by decide) (by decide) (by decide)⟩

/-! ### C4 -/

theorem dayOf_add_msPerDay (t : Int) : dayOf (t + msPerDay) = dayOf t + 1 := by
  unfold dayOf msPerDay
  omega

theorem dayOf_add_small (t h : Int) (h0 : 0 ≤ h)
    (hlt : t % msPerDay + h < msPerDay) : dayOf (t + h) = dayOf t := by
  unfold dayOf msPerDay
  unfold msPerDay at hlt
  omega

/-- C4 counterexample: for the unbound dated issue `issueLateDue`, whose due
instant is 23:30 UTC of epoch day 0, the reconciler passes
`(dueDate, dueDate.Add(time.Hour))` to `CreateEvent`, and the client
formats `Start = day 0` but `End = day 2` (the extra hour crosses midnight
and `AddDate(0,0,1)` adds another day) — not the due date's day plus
exactly one day. -/
theorem c4_counterexample :
    processYTissues dbImpl envQuiet [issueLateDue] st0 =
      .ok (st0, [RemoteCall.createEvent "cal" "S"
        (ytIssueDescription "https://yt.example" "YT9") 84600000 (84600000 + msPerHour)]) ∧
    calEventBodyDates 84600000 (84600000 + msPerHour) = (0, 2) ∧
    ((2 : Int) ≠ 0 + 1) := by
  decide

/-- C4 (amended): for an IT issue with a present due date `d` and no
binding, the reconciler asks the CAL adapter to create an event with start
instant `d` and end instant `d + one hour`; the adapter's whole-day
formatting then yields start day = day(`d`) and exclusive end day =
day(`d + 1h`) + 1. This equals day(`d`) + 1 — as the claim states — exactly
when the extra hour does not cross midnight; for a due instant in the last
hour of its UTC day the exclusive end is day(`d`) + 2. -/
theorem c4_amended :
    ∀ (env : SyncEnv) (st : Store) (issue : Issue) (d : Int),
      findByYTId st.items issue.id = none →
      extractDueDate issue = d →
      d ≠ goZeroMs →
      callsOf (processYTissues dbImpl env [issue] st) =
        [RemoteCall.createEvent env.calendarID issue.summary
          (ytIssueDescription env.ytBaseURL issue.id) d (d + msPerHour)] ∧
      calEventBodyDates d (d + msPerHour) = (dayOf d, dayOf (d + msPerHour) + 1) ∧
      (d % msPerDay + msPerHour < msPerDay →
        calEventBodyDates d (d + msPerHour) = (dayOf d, dayOf d + 1)) := by
  intro env st issue d hfind hdue hd
  refine ⟨?_, ?_, ?_⟩
  · cases hcr : env.gcalCreateEvent env.calendarID issue.summary
        (ytIssueDescription env.ytBaseURL issue.id) d (d + msPerHour) <;>
      simp [callsOf, processYTissues, processYTissuesLoop, dbImpl_getSyncItemByYTID,
        hfind, hdue, hd, hcr]
  · unfold calEventBodyDates
    rw [show d + msPerHour + msPerDay = (d + msPerHour) + msPerDay by ring,
      dayOf_add_msPerDay]
  · intro hsmall
    unfold calEventBodyDates
    rw [show d + msPerHour + msPerDay = (d + msPerHour) + msPerDay by ring,
      dayOf_add_msPerDay,
      dayOf_add_small d msPerHour (by norm_num [msPerHour]) hsmall]

/-- C4 witness: the amended theorem applied to an unbound issue due at noon
of epoch day 0 (instant 43200000): the create call carries
`(43200000, 43200000 + 1h)` and the formatted whole-day dates are day 0 to
exclusive day 1. -/
theorem c4_witness :
    callsOf (processYTissues dbImpl envQuiet
        [{ id := "YT5", summary := "T", updated := 10,
           customFields := [{ name := "Due Date", value := .num 43200000 }] }] st0) =
      [RemoteCall.createEvent "cal" "T"
        (ytIssueDescription "https://yt.example" "YT5") 43200000 (43200000 + msPerHour)] ∧
    calEventBodyDates 43200000 (43200000 + msPerHour) =
      (dayOf 43200000, dayOf (43200000 + msPerHour) + 1) ∧
    ((43200000 : Int) % msPerDay + msPerHour < msPerDay →
      calEventBodyDates 43200000 (43200000 + msPerHour) = (dayOf 43200000, dayOf 43200000 + 1)) := by
  exact c4_amended envQuiet st0
    { id := "YT5", summary := "T", updated := 10,
      customFields := [{ name := "Due Date", value := .num 43200000 }] }
    43200000 (by decide) (by decide) (by decide)

/-! ### C2 -/

/-- C2 counterexample: the claim's error taxonomy fails on the code in both
directions. A failure of the all-bindings store read at the start of step 5
(`GetAllSyncItems` inside `handleDeletions`) propagates out of `Sync`,
although it is a store read performed during steps 3–6; and failures of the
step-7 cursor writes do not propagate — `Sync` still returns nil with both
writes failing. -/
theorem c2_counterexample :
    Sync dbGetAllFails envQuiet 0 5 st0 =
      .error "failed to get all sync items: disk failure" ∧
    Sync dbCursorWritesFail envQuiet 0 5 st0 = .ok (st0, []) := by
  decide

/-- C2 (amended): the errors that propagate out of `Sync` are exactly those
of step 1 (the two cursor loads), step 2 (the three delta fetches), and the
all-bindings store read opening step 5; step-7 cursor-write failures are
logged and swallowed, and every other per-item operation — remote calls and
store reads/writes alike — may fail arbitrarily without making `Sync`
return an error: whenever the six propagating points succeed, `Sync`
returns ok, for every behaviour of all remaining operations. -/
theorem c2_amended :
    ∀ (db : DbOps) (env : SyncEnv) (nowStart nowEnd : Int) (st : Store)
      (tok : String) (yt : Int) (evs : List GCalEvent) (ntok : String)
      (issues : List Issue) (dels : List String) (f : Store → List SyncItem),
      db.getGCalSyncToken st = .ok tok →
      db.getYTLastSync st = .ok yt →
      env.fetchEvents env.calendarID tok = .ok (evs, ntok) →
      env.getUpdatedIssues env.ytQueryProjectID (resolveWatermark yt nowStart) = .ok issues →
      env.getDeletedIssueIDs env.ytQueryProjectID (resolveWatermark yt nowStart) = .ok dels →
      (∀ s, db.getAllSyncItems s = .ok (f s)) →
      ∃ out, Sync db env nowStart nowEnd st = .ok out := by
  intro db env nowStart nowEnd st tok yt evs ntok issues dels f h1 h2 h3 h4 h5 hga
  simp only [Sync, h1, h2, h3, h4, h5, hga, bind, Except.bind, processGCalEvents,
    processYTissues, processYTDeletions, handleDeletions]
  exact ⟨_, rfl⟩

/-- C2 witness: the amended theorem applied to `dbImpl` (whose
all-bindings read returns the stored rows) and the quiet environment. -/
theorem c2_witness :
    ∃ out, Sync dbImpl envQuiet 0 5 st0 = .ok out :=
  c2_amended dbImpl envQuiet 0 5 st0 "" goZeroMs [] "tok-next" [] []
    (fun s => s.items) (by decide) (by decide) (by decide) (by decide) (by decide)
    (fun _ => rfl)

/-! ### C3 -/

/-- C3 counterexample: a run whose step-1 clock reads 0 and whose step-7
clock reads 5 persists 5 — the instant sampled at the end of the run when
the watermark is written, not the instant at which the run started. -/
theorem c3_counterexample :
    Sync dbImpl envQuiet 0 5 st0 =
      .ok ({ items := [], nextId := 1,
             lastSync := some { gcalSyncToken := some "tok-next", ytLastSync := some 5 } }, []) ∧
    storedWatermark
        { items := [], nextId := 1,
          lastSync := some { gcalSyncToken := some "tok-next", ytLastSync := some 5 } } =
      some 5 ∧
    some (5 : Int) ≠ some (0 : Int) := by
  decide

/-- C3 (amended): every run of `Sync` over the real store that returns ok
persists, as the IT watermark, the instant of the fresh `time.Now()` call
made at step 7 — the end of the run — which can be later than the run's
start; and cursor-write failures at step 7 are logged and do not make the
run fail (second conjunct: both cursor writes failing, the run still
returns ok). -/
theorem c3_amended :
    (∀ (env : SyncEnv) (nowStart nowEnd : Int) (st st' : Store)
        (calls : List RemoteCall),
      Sync dbImpl env nowStart nowEnd st = .ok (st', calls) →
      storedWatermark st' = some nowEnd) ∧
    Sync dbCursorWritesFail envQuiet 0 7 st0 = .ok (st0, []) := by
  constructor
  · intro env nowStart nowEnd st st' calls h
    simp only [Sync, bind, Except.bind] at h
    cases h1 : dbImpl.getGCalSyncToken st with
    | error e => simp only [h1] at h; exact Except.noConfusion h
    | ok tok =>
    simp only [h1] at h
    cases h2 : dbImpl.getYTLastSync st with
    | error e => simp only [h2] at h; exact Except.noConfusion h
    | ok yt =>
    simp only [h2] at h
    cases h3 : env.fetchEvents env.calendarID tok with
    | error e => simp only [h3] at h; exact Except.noConfusion h
    | ok fetched =>
    simp only [h3] at h
    cases h4 : env.getUpdatedIssues env.ytQueryProjectID (resolveWatermark yt nowStart) with
    | error e => simp only [h4] at h; exact Except.noConfusion h
    | ok issues =>
    simp only [h4] at h
    cases h5 : env.getDeletedIssueIDs env.ytQueryProjectID (resolveWatermark yt nowStart) with
    | error e => simp only [h5] at h; exact Except.noConfusion h
    | ok dels =>
    simp only [h5] at h
    simp only [processGCalEvents, processYTissues, processYTDeletions,
      handleDeletions, dbImpl_getAllSyncItems, dbImpl_setYTLastSync] at h
    rw [Except.ok.injEq, Prod.mk.injEq] at h
    obtain ⟨hst, -⟩ := h
    rw [← hst]
    simp only [storedWatermark]
    split <;> rfl
  · decide

/-- C3 witness: the first conjunct of the amended theorem applied to the
concrete quiet run with step-7 clock 5. -/
theorem c3_witness :
    storedWatermark
        { items := [], nextId := 1,
          lastSync := some { gcalSyncToken := some "tok-next", ytLastSync := some 5 } } =
      some 5 :=
  c3_amended.1 envQuiet 0 5 st0
    { items := [], nextId := 1,
      lastSync := some { gcalSyncToken := some "tok-next", ytLastSync := some 5 } }
    [] (by decide)

/-! ### C10 -/

theorem idsInherited_refl (l : List SyncItem) : IdsInherited l l :=
  fun it hit => .inr ⟨it, hit, rfl, rfl, rfl⟩

theorem idsInherited_trans {a b c : List SyncItem} :
    IdsInherited a b → IdsInherited b c → IdsInherited a c := by
  intro hab hbc it hit
  rcases hbc it hit with hboth | ⟨j, hj, hid, hg, hy⟩
  · exact .inl hboth
  · rcases hab j hj with hbothj | ⟨k, hk, kid, kg, ky⟩
    · exact .inl ⟨hg ▸ hbothj.1, hy ▸ hbothj.2⟩
    · exact .inr ⟨k, hk, kid.trans hid, kg.trans hg, ky.trans hy⟩

/-- A `CreateSyncItem` attempt (success or logged failure) only adds rows
whose two remote ids are both populated, provided the inserted row has
both populated. -/
theorem idsInherited_createStep (st : Store) (item : SyncItem)
    (hv : item.gcalId.valid = true ∧ item.ytId.valid = true) :
    IdsInherited st.items
      (match dbImpl.createSyncItem st item with
       | .ok (s, _) => s
       | .error _ => st).items := by
  rw [dbImpl_createSyncItem]
  by_cases hconf : st.items.any (fun it => conflictsWith item it)
  · rw [if_pos hconf]
    exact idsInherited_refl _
  · rw [if_neg hconf]
    intro it hit
    rcases List.mem_append.1 hit with hmem | hnew
    · exact .inr ⟨it, hmem, rfl, rfl, rfl⟩
    · rcases List.mem_singleton.1 hnew with rfl
      exact .inl ⟨hv.1, hv.2⟩

/-- An `UpdateSyncItem` attempt only rewrites rows to a value whose local id
and remote ids coincide with those of a pre-existing row. -/
theorem idsInherited_updateStep (st : Store) (item j0 : SyncItem)
    (hj0 : j0 ∈ st.items) (hid : j0.id = item.id)
    (hg : j0.gcalId = item.gcalId) (hy : j0.ytId = item.ytId) :
    IdsInherited st.items
      (match dbImpl.updateSyncItem st item with
       | .ok s => s
       | .error _ => st).items := by
  rw [dbImpl_updateSyncItem]
  by_cases hguard : ((st.items.any fun it => it.id == item.id) &&
      st.items.any fun it => decide (it.id ≠ item.id) && conflictsWith item it) = true
  · rw [if_pos hguard]
    exact idsInherited_refl _
  · rw [if_neg hguard]
    intro it hit
    rcases List.mem_map.1 hit with ⟨x, hx, hxe⟩
    by_cases hxid : x.id = item.id
    · rw [if_pos hxid] at hxe
      exact .inr ⟨j0, hj0, hxe ▸ hid, hxe ▸ hg, hxe ▸ hy⟩
    · rw [if_neg hxid] at hxe
      exact .inr ⟨x, hx, congrArg SyncItem.id hxe, congrArg SyncItem.gcalId hxe,
        congrArg SyncItem.ytId hxe⟩

/-- A `DeleteSyncItem` attempt only removes rows. -/
theorem idsInherited_deleteStep (st : Store) (id : Nat) :
    IdsInherited st.items
      (match dbImpl.deleteSyncItem st id with
       | .ok s => s
       | .error _ => st).items := by
  rw [dbImpl_deleteSyncItem]
  intro it hit
  exact .inr ⟨it, (List.mem_filter.1 hit).1, rfl, rfl, rfl⟩

theorem processGCalEventsLoop_inherited (env : SyncEnv) :
    ∀ (events : List GCalEvent) (st : Store),
      IdsInherited st.items (processGCalEventsLoop dbImpl env events st).1.items := by
  intro events
  induction events with
  | nil => intro st; exact idsInherited_refl _
  | cons ev rest ih =>
    intro st
    rw [processGCalEventsLoop]
    split
    · exact ih st
    · split
      · exact ih st
      · cases hci : env.ytCreateIssue env.ytProjectID ev.summary ev.htmlLink
            (some ev.start) with
        | error e => exact ih st
        | ok issue => exact idsInherited_trans (idsInherited_createStep st _ ⟨rfl, rfl⟩) (ih _)
      · next syncItem heq =>
        rw [dbImpl_getSyncItemByGCalID] at heq
        have hfind : findByGCalId st.items ev.id = some syncItem := Except.ok.inj heq
        split
        · exact idsInherited_trans
            (idsInherited_updateStep st
              { syncItem with gcalUpdatedAt := { time := ev.updated, valid := true } }
              syncItem (List.mem_of_find?_eq_some hfind) rfl rfl rfl) (ih _)
        · exact ih st

theorem processYTissuesLoop_inherited (env : SyncEnv) :
    ∀ (issues : List Issue) (st : Store),
      IdsInherited st.items (processYTissuesLoop dbImpl env issues st).1.items := by
  intro issues
  induction issues with
  | nil => intro st; exact idsInherited_refl _
  | cons issue rest ih =>
    intro st
    rw [processYTissuesLoop]
    split
    · exact ih st
    · next r heq =>
      rw [dbImpl_getSyncItemByYTID] at heq
      have hfind : findByYTId st.items issue.id = r := Except.ok.inj heq
      split
      · split
        · cases hce : env.gcalCreateEvent env.calendarID issue.summary
              (ytIssueDescription env.ytBaseURL issue.id)
              (extractDueDate issue) (extractDueDate issue + msPerHour) with
          | error e => exact ih st
          | ok ev => exact idsInherited_trans (idsInherited_createStep st _ ⟨rfl, rfl⟩) (ih _)
        · exact ih st
      · next syncItem =>
        split
        · exact idsInherited_trans
            (idsInherited_updateStep st
              { syncItem with ytUpdatedAt := { time := issue.updated, valid := true } }
              syncItem
              (List.mem_of_find?_eq_some (hfind : findByYTId st.items issue.id = some syncItem))
              rfl rfl rfl) (ih _)
        · exact ih st

theorem handleDeletionsLoop_inherited (env : SyncEnv) (events : List GCalEvent) :
    ∀ (items : List SyncItem) (st : Store),
      IdsInherited st.items (handleDeletionsLoop dbImpl env events items st).1.items := by
  intro items
  induction items with
  | nil => intro st; exact idsInherited_refl _
  | cons item rest ih =>
    intro st
    rw [handleDeletionsLoop]
    by_cases hc : cancelledInBatch events item
    · rw [if_pos hc]
      exact idsInherited_trans (idsInherited_deleteStep st item.id) (ih _)
    · rw [if_neg hc]
      exact ih st

theorem processYTDeletionsLoop_inherited (env : SyncEnv) :
    ∀ (ids : List String) (st : Store),
      IdsInherited st.items (processYTDeletionsLoop dbImpl env ids st).1.items := by
  intro ids
  induction ids with
  | nil => intro st; exact idsInherited_refl _
  | cons ytID rest ih =>
    intro st
    rw [processYTDeletionsLoop]
    split
    · exact ih st
    · exact ih st
    · next syncItem heq =>
      split
      · exact idsInherited_trans (idsInherited_deleteStep st syncItem.id) (ih _)
      · exact ih st

/-- The step-7 cursor writes never change the binding rows. -/
theorem step7_items (st4 : Store) (c : Prop) [Decidable c] (tok : String) (t : Int) :
    (match dbImpl.setYTLastSync
        (if c then
          match dbImpl.setGCalSyncToken st4 tok with
          | .ok s => s
          | .error _ => st4
        else st4) t with
      | .ok s => s
      | .error _ =>
        (if c then
          match dbImpl.setGCalSyncToken st4 tok with
          | .ok s => s
          | .error _ => st4
        else st4)).items = st4.items := by
  by_cases hc : c <;>
    simp [hc, dbImpl_setGCalSyncToken, dbImpl_setYTLastSync]

/-- C10: every binding present after a run of `Sync` over the real store
either inherits its local id and both remote ids from a binding that
existed before the run, or has both its CAL id and its IT id populated —
the create-binding calls in both directions always supply both remote ids,
so the engine itself never produces a half-bound row. -/
theorem c10_created_bindings_fully_bound :
    ∀ (env : SyncEnv) (nowStart nowEnd : Int) (st st' : Store)
      (calls : List RemoteCall),
      Sync dbImpl env nowStart nowEnd st = .ok (st', calls) →
      ∀ it ∈ st'.items, (it.gcalId.valid = true ∧ it.ytId.valid = true) ∨
        ∃ j ∈ st.items, j.id = it.id ∧ j.gcalId = it.gcalId ∧ j.ytId = it.ytId := by
  intro env nowStart nowEnd st st' calls h
  simp only [Sync, bind, Except.bind] at h
  cases h1 : dbImpl.getGCalSyncToken st with
  | error e => simp only [h1] at h; exact Except.noConfusion h
  | ok tok =>
  simp only [h1] at h
  cases h2 : dbImpl.getYTLastSync st with
  | error e => simp only [h2] at h; exact Except.noConfusion h
  | ok yt =>
  simp only [h2] at h
  cases h3 : env.fetchEvents env.calendarID tok with
  | error e => simp only [h3] at h; exact Except.noConfusion h
  | ok fetched =>
  simp only [h3] at h
  cases h4 : env.getUpdatedIssues env.ytQueryProjectID (resolveWatermark yt nowStart) with
  | error e => simp only [h4] at h; exact Except.noConfusion h
  | ok issues =>
  simp only [h4] at h
  cases h5 : env.getDeletedIssueIDs env.ytQueryProjectID (resolveWatermark yt nowStart) with
  | error e => simp only [h5] at h; exact Except.noConfusion h
  | ok dels =>
  simp only [h5] at h
  simp only [processGCalEvents, processYTissues, processYTDeletions,
    handleDeletions, dbImpl_getAllSyncItems] at h
  rw [Except.ok.injEq, Prod.mk.injEq] at h
  obtain ⟨hst, -⟩ := h
  rw [← hst]
  intro it hit
  rw [step7_items] at hit
  exact idsInherited_trans
    (idsInherited_trans
      (idsInherited_trans
        (processGCalEventsLoop_inherited env fetched.1 st)
        (processYTissuesLoop_inherited env issues
          (processGCalEventsLoop dbImpl env fetched.1 st).1))
      (handleDeletionsLoop_inherited env fetched.1
        (processYTissuesLoop dbImpl env issues
          (processGCalEventsLoop dbImpl env fetched.1 st).1).1.items
        (processYTissuesLoop dbImpl env issues
          (processGCalEventsLoop dbImpl env fetched.1 st).1).1))
    (processYTDeletionsLoop_inherited env dels
      (handleDeletionsLoop dbImpl env fetched.1
        (processYTissuesLoop dbImpl env issues
          (processGCalEventsLoop dbImpl env fetched.1 st).1).1.items
        (processYTissuesLoop dbImpl env issues
          (processGCalEventsLoop dbImpl env fetched.1 st).1).1).1)
    it hit

/-- C10 witness: a run of `Sync` that creates one binding from a fresh CAL
event: the theorem applied to the created row yields that both its remote
ids are populated. -/
theorem c10_witness :
    ({ id := 1,
       gcalId := { string := "EV-new", valid := true },
       ytId := { string := "YT-new", valid := true },
       gcalUpdatedAt := { time := 300, valid := true },
       ytUpdatedAt := { time := 310, valid := true } } : SyncItem).gcalId.valid = true ∧
    ({ id := 1,
       gcalId := { string := "EV-new", valid := true },
       ytId := { string := "YT-new", valid := true },
       gcalUpdatedAt := { time := 300, valid := true },
       ytUpdatedAt := { time := 310, valid := true } } : SyncItem).ytId.valid = true := by
  rcases c10_created_bindings_fully_bound envCreate 0 5 st0
    { items := [{ id := 1,
                  gcalId := { string := "EV-new", valid := true },
                  ytId := { string := "YT-new", valid := true },
                  gcalUpdatedAt := { time := 300, valid := true },
                  ytUpdatedAt := { time := 310, valid := true } }],
      nextId := 2,
      lastSync := some { gcalSyncToken := some "tok-next", ytLastSync := some 5 } }
    [RemoteCall.createIssue "P" "N" "LN" (some 40)]
    (by decide)
    { id := 1,
      gcalId := { string := "EV-new", valid := true },
      ytId := { string := "YT-new", valid := true },
      gcalUpdatedAt := { time := 300, valid := true },
      ytUpdatedAt := { time := 310, valid := true } }
    (by decide) with hboth | ⟨j, hjm, -⟩
  · exact hboth
  · exact absurd hjm (by simp [st0])

/-! ### C8 -/

/-- The remote-call trace of the `handleDeletions` loop: one
`UpdateIssue(ytID, "", "", nil)` per snapshot binding that the batch marks
cancelled, in snapshot order, regardless of store behaviour. -/
theorem handleDeletionsLoop_calls (db : DbOps) (env : SyncEnv)
    (events : List GCalEvent) :
    ∀ (items : List SyncItem) (st : Store),
      (handleDeletionsLoop db env events items st).2 =
        (items.filter (cancelledInBatch events)).map
          (fun it => RemoteCall.updateIssue it.ytId.string "" "" none) := by
  intro items
  induction items with
  | nil => intro st; rfl
  | cons item rest ih =>
    intro st
    by_cases hc : cancelledInBatch events item <;>
      simp [handleDeletionsLoop, hc, List.filter_cons, ih]

/-- The store result of the `handleDeletions` loop over `dbImpl`: exactly
the rows whose local id matches a cancelled snapshot binding are deleted. -/
theorem handleDeletionsLoop_store (env : SyncEnv) (events : List GCalEvent) :
    ∀ (items : List SyncItem) (st : Store),
      (handleDeletionsLoop dbImpl env events items st).1 =
        { st with items := st.items.filter (fun it =>
            !(((items.filter (cancelledInBatch events)).map SyncItem.id).contains it.id)) } := by
  intro items
  induction items with
  | nil =>
    intro st
    simp [handleDeletionsLoop, List.filter_true]
  | cons item rest ih =>
    intro st
    by_cases hc : cancelledInBatch events item
    · simp only [handleDeletionsLoop, hc, if_true, dbImpl_deleteSyncItem, ih,
        List.filter_cons]
      simp only [hc, if_true, List.map_cons]
      rw [List.filter_filter]
      congr 1
      apply List.filter_congr
      intro x hx
      simp only [List.contains_cons]
      have hbeq : (x.id == item.id) = decide (x.id = item.id) := by
        by_cases h : x.id = item.id <;> simp [h]
      simp [hbeq, Bool.and_comm]
    · simp [handleDeletionsLoop, hc, ih, List.filter_cons]

/-- C8: for a store whose local ids are distinct (the primary-key
invariant), `handleDeletions` performs exactly one
`update_issue(yt_id, "", "", due=absent)` call per binding whose CAL id the
delta batch maps to a cancelled event, deletes exactly those bindings, and
leaves every other binding untouched. -/
theorem c8_handleDeletions_characterisation
    (env : SyncEnv) (events : List GCalEvent) (st : Store)
    (hnodup : (st.items.map SyncItem.id).Nodup) :
    handleDeletions dbImpl env events st =
      .ok ({ st with items := st.items.filter (fun it => !(cancelledInBatch events it)) },
        (st.items.filter (cancelledInBatch events)).map
          (fun it => RemoteCall.updateIssue it.ytId.string "" "" none)) := by
  have hcalls := handleDeletionsLoop_calls dbImpl env events st.items st
  have hstore := handleDeletionsLoop_store env events st.items st
  have hfix : st.items.filter (fun it =>
      !(((st.items.filter (cancelledInBatch events)).map SyncItem.id).contains it.id)) =
      st.items.filter (fun it => !(cancelledInBatch events it)) := by
    apply List.filter_congr
    intro x hx
    congr 1
    by_cases hcx : cancelledInBatch events x
    · have : x.id ∈ (st.items.filter (cancelledInBatch events)).map SyncItem.id :=
        List.mem_map_of_mem SyncItem.id (List.mem_filter.2 ⟨hx, hcx⟩)
      rw [hcx]
      exact List.elem_iff.2 this
    · have : ¬ x.id ∈ (st.items.filter (cancelledInBatch events)).map SyncItem.id := by
        intro hmem
        obtain ⟨j, hj, hje⟩ := List.mem_map.1 hmem
        obtain ⟨hjmem, hjc⟩ := List.mem_filter.1 hj
        have : j = x := List.inj_on_of_nodup_map hnodup hjmem hx hje
        exact hcx (this ▸ hjc)
      rw [Bool.eq_false_iff.2 hcx]
      exact Bool.eq_false_iff.2 (fun hcontains => this (List.elem_iff.1 hcontains))
  unfold handleDeletions
  rw [dbImpl_getAllSyncItems]
  have : handleDeletionsLoop dbImpl env events st.items st =
      ({ st with items := st.items.filter (fun it => !(cancelledInBatch events it)) },
        (st.items.filter (cancelledInBatch events)).map
          (fun it => RemoteCall.updateIssue it.ytId.string "" "" none)) := by
    rw [Prod.ext_iff]
    exact ⟨by rw [hstore, hfix], hcalls⟩
  show Except.ok (handleDeletionsLoop dbImpl env events st.items st) = _
  rw [this]

/-- C8 witness: a two-binding store where the batch cancels `EV1` but not
`EV2`: one clearing call for `YT1`, its binding deleted, the `EV2` binding
untouched. -/
theorem c8_witness :
    handleDeletions dbImpl envQuiet
        [{ id := "EV1", summary := "S", htmlLink := "L", start := 50,
           status := "cancelled", updated := 300 },
         { id := "EV2", summary := "S2", htmlLink := "L2", start := 60,
           status := "confirmed", updated := 310 }]
        { items := [item1,
            { id := 2,
              gcalId := { string := "EV2", valid := true },
              ytId := { string := "YT2", valid := true },
              gcalUpdatedAt := { time := 110, valid := true },
              ytUpdatedAt := { time := 110, valid := true } }],
          nextId := 3, lastSync := none } =
      .ok ({ items := [{ id := 2,
                         gcalId := { string := "EV2", valid := true },
                         ytId := { string := "YT2", valid := true },
                         gcalUpdatedAt := { time := 110, valid := true },
                         ytUpdatedAt := { time := 110, valid := true } }],
             nextId := 3, lastSync := none },
        [RemoteCall.updateIssue "YT1" "" "" none]) := by
  have h := c8_handleDeletions_characterisation envQuiet
    [{ id := "EV1", summary := "S", htmlLink := "L", start := 50,
       status := "cancelled", updated := 300 },
     { id := "EV2", summary := "S2", htmlLink := "L2", start := 60,
       status := "confirmed", updated := 310 }]
    { items := [item1,
        { id := 2,
          gcalId := { string := "EV2", valid := true },
          ytId := { string := "YT2", valid := true },
          gcalUpdatedAt := { time := 110, valid := true },
          ytUpdatedAt := { time := 110, valid := true } }],
      nextId := 3, lastSync := none }
    (by decide)
  rw [h]
  decide

/-- C9 witness: the amended theorem applied at an unknown id (id 7 in the
one-item store) and at the known id 1. -/
theorem c9_witness :
    dbImpl.updateSyncItem stOne { item1 with id := 7 } = .ok stOne ∧
    dbImpl.updateSyncItem stOne item1 =
      .ok { stOne with
              items := stOne.items.map (fun it => if it.id = item1.id then item1 else it) } := by
  refine ⟨?_, ?_⟩
  · exact c9_update_overwrites_all_fields.1 stOne { item1 with id := 7 } (by decide)
  · exact c9_update_overwrites_all_fields.2 stOne item1 (by decide)

end YTSync
